import Mathlib

/-!
Verification of the retrieval-augmented-generation pipeline of the
`azure_rag_mvp` repository.  Shallow embedding: the pure content of each
Python function is translated into a Lean definition; external providers
(Azure OpenAI embeddings / chat completions, Azure AI Search) are modelled
as oracles passed in explicitly, and every outgoing provider call is
recorded in a trace so that claims about which calls happen (and with which
arguments) can be stated and proved.
-/

set_option maxRecDepth 40000

deriving instance DecidableEq for Except

namespace RagMvp

/-! ## document_processor.py -/

/-- Accumulator recursion behind `splitWs`: `acc` holds the current word's
characters in reverse. -/
def splitWsAux : List Char → List Char → List String
  | [], acc => if acc.isEmpty then [] else [String.mk acc.reverse]
  | c :: cs, acc =>
      if c.isWhitespace then
        if acc.isEmpty then splitWsAux cs [] else String.mk acc.reverse :: splitWsAux cs []
      else splitWsAux cs (c :: acc)

/-- Python `text.split()`: split on runs of whitespace, dropping empty
fragments (so no returned word is empty or contains whitespace). -/
def splitWs (s : String) : List String :=
  splitWsAux s.data []

/-- Python `str.strip()`: remove leading and trailing whitespace. -/
def pyStrip (s : String) : String :=
  String.mk (((s.data.dropWhile Char.isWhitespace).reverse.dropWhile Char.isWhitespace).reverse)

/-- Python `sep.join(ws)`: the strings separated by `sep`. -/
def joinSep (sep : String) : List String → String
  | [] => ""
  | [w] => w
  | w :: ws => w ++ sep ++ joinSep sep ws

/-- Python `" ".join(ws)` as used by `chunk_text`. -/
def joinWords (ws : List String) : String :=
  joinSep " " ws

/-- The guard at `document_processor.py:50`:
`if chunk.strip() and len(chunk.strip()) > 100` (with `t = chunk.strip()`):
keep the chunk when the stripped text is truthy (non-empty) and strictly
longer than 100 characters. -/
def keepChunk (t : String) : Bool :=
  decide (t ≠ "" ∧ 100 < t.length)

/-- Python `range(0, stop, step)` for a `Nat` stop: raises `ValueError` when
`step = 0`; empty when `step < 0` (a descending range starting at 0 with a
non-negative stop); otherwise the multiples of `step` below `stop`. -/
def pyRange0 (stop : Nat) (step : Int) : Except String (List Nat) :=
  if step = 0 then .error "range() arg 3 must not be zero"
  else if step < 0 then .ok []
  else .ok ((List.range ((stop + step.toNat - 1) / step.toNat)).map (fun k => k * step.toNat))

/-- The window `words[i : i + maxC]`. -/
def windowAt (words : List String) (maxC i : Nat) : List String :=
  (words.drop i).take maxC

/-- `" ".join(words[i : i + maxC]).strip()` (`document_processor.py:49`). -/
def chunkAt (words : List String) (maxC i : Nat) : String :=
  pyStrip (joinWords (windowAt words maxC i))

/-- The loop of `chunk_text` (`document_processor.py:48-52`), acting on the
already-split word list: iterate `i` over `range(0, len(words), maxC - ovl)`
and append the stripped joined window whenever the length guard holds.
`ovl` is an `Int` because Python imposes no sign restriction and the step
`maxC - ovl` may be zero (a `ValueError` from `range`) or negative. -/
def chunkWordsE (words : List String) (maxC : Nat) (ovl : Int) : Except String (List String) :=
  match pyRange0 words.length ((maxC : Int) - ovl) with
  | .error e => .error e
  | .ok idxs =>
      .ok (idxs.filterMap (fun i =>
        let t := chunkAt words maxC i
        if keepChunk t then some t else none))

/-- `chunk_text(text, max_chunk_size, overlap)` (`document_processor.py:43-53`).
The Python defaults are `max_chunk_size = 500`, `overlap = 50`. -/
def chunk_text (text : String) (maxC : Nat) (ovl : Int) : Except String (List String) :=
  chunkWordsE (splitWs text) maxC ovl

/-- One element of the list built by `process_document`
(`document_processor.py:76-87`). -/
structure ChunkData where
  id : String
  source_file : String
  chunk_index : Nat
  content : String
  content_length : Nat
deriving DecidableEq

/-- The metadata loop of `process_document` (`document_processor.py:76-87`):
`id = f"{filename}_chunk_{i}"` for the `i`-th chunk. -/
def processChunks (filename : String) (chunks : List String) : List ChunkData :=
  chunks.enum.map (fun p =>
    { id := filename ++ "_chunk_" ++ toString p.1
      source_file := filename
      chunk_index := p.1
      content := p.2
      content_length := p.2.length })

/-! ### Derived notions used to state the chunking claims -/

/-- The window start indices that survive the length filter, in emission
order (empty when the step is invalid). -/
def keptStarts (words : List String) (maxC : Nat) (ovl : Int) : List Nat :=
  match pyRange0 words.length ((maxC : Int) - ovl) with
  | .error _ => []
  | .ok idxs => idxs.filter (fun i => keepChunk (chunkAt words maxC i))

/-- Number of token positions shared by the windows starting at `i` and at
`j ≥ i` (each of nominal size `maxC`, truncated at `len`). -/
def sharedTok (len maxC i j : Nat) : Nat :=
  min (i + maxC) len - j

/-- The overlap property as the claim states it: every pair of successive
emitted chunks, except possibly the pair ending at the last chunk, shares
exactly `ovl` tokens. -/
def succOverlapExact (words : List String) (maxC : Nat) (ovl : Int) : Prop :=
  ∀ k, k + 2 < (keptStarts words maxC ovl).length →
    sharedTok words.length maxC ((keptStarts words maxC ovl).getD k 0)
      ((keptStarts words maxC ovl).getD (k + 1) 0) = ovl.toNat

/-- The loop step `max_chunk_size - overlap` for valid parameters. -/
def stepOf (maxC : Nat) (ovl : Int) : Nat :=
  maxC - ovl.toNat

/-- The number of windows `range(0, len, step)` produces. -/
def numWindows (len maxC : Nat) (ovl : Int) : Nat :=
  (len + stepOf maxC ovl - 1) / stepOf maxC ovl

/-- All window start indices for valid parameters: multiples of the step. -/
def windowStarts (len maxC : Nat) (ovl : Int) : List Nat :=
  (List.range (numWindows len maxC ovl)).map (fun k => k * stepOf maxC ovl)

/-! ### Concrete inputs used in scenario proofs and counterexamples -/

/-- The 1200-word document of end-to-end scenario 1 (every word is `"abcd"`). -/
def intro1200 : List String := List.replicate 1200 "abcd"

/-- A 101-character word (long enough that a single-word window passes the
length filter). -/
def w101 : String := String.mk (List.replicate 101 'a')

/-- A 100-character word (its single-word window strips to exactly 100
characters). -/
def w100 : String := String.mk (List.replicate 100 'a')

/-- A four-word text whose words are all 101 characters long. -/
def cexText : String := joinWords (List.replicate 4 w101)

/-! ## services.py and main.py : data model -/

/-- A document as returned by Azure AI Search
(`select = "id,source_file,content,chunk_index"`, `services.py:132`). -/
structure SearchDoc where
  id : String
  source_file : String
  chunk_index : Nat
  content : String
deriving DecidableEq

/-- A role-tagged chat message. -/
structure Msg where
  role : String
  content : String
deriving DecidableEq

/-- The parsed body of a successful Azure Search response; `vector_search`
reads its `value` field (`services.py:139`). -/
structure SearchResp where
  value : List SearchDoc
deriving DecidableEq

/-- One outgoing provider call, as recorded in the execution trace. -/
inductive Call where
  | embed (text : String)
  | search (vec : List Int) (k : Int)
  | complete (messages : List Msg) (max_tokens : Nat)
deriving DecidableEq

/-- The external Azure providers, modelled as oracles: `embed` is the
embeddings API (`none` = any provider error), `search` is the Azure Search
REST call (`none` = non-200 status or network error; `some r` = the parsed
JSON body), `complete` is the chat-completions API. -/
structure Providers where
  embed : String → Option (List Int)
  search : List Int → Int → Option SearchResp
  complete : List Msg → Nat → Option String

/-- `AzureOpenAIService.get_embedding` (`services.py:30-39`): returns the
embedding, or `None` on any exception.  Also records the outgoing call. -/
def get_embedding (p : Providers) (text : String) : Option (List Int) × List Call :=
  (p.embed text, [Call.embed text])

/-- `AzureSearchService.vector_search` (`services.py:112-146`): on a 200
response returns `search_results.get("value", [])` — the provider's ordered
result list, unchanged; otherwise `None`. -/
def vector_search (p : Providers) (query_embedding : List Int) (top_k : Int) :
    Option (List SearchDoc) × List Call :=
  (match p.search query_embedding top_k with
   | some resp => some resp.value
   | none => none,
   [Call.search query_embedding top_k])

/-- `AzureOpenAIService.generate_completion` (`services.py:41-55`). -/
def generate_completion (p : Providers) (messages : List Msg) (max_tokens : Nat) :
    Option String × List Call :=
  (p.complete messages max_tokens, [Call.complete messages max_tokens])

/-- The per-document context block of `generate_rag_response`
(`services.py:66`): `f"Source: {source_file} (chunk {chunk_index})\n{content}"`. -/
def docContext (d : SearchDoc) : String :=
  "Source: " ++ d.source_file ++ " (chunk " ++ toString d.chunk_index ++ ")\n" ++ d.content

/-- The fallback context of `generate_rag_response` (`services.py:73`). -/
def noContextPlaceholder : String :=
  "No relevant context found in the documentation."

/-- Context assembly of `generate_rag_response` (`services.py:63-75`):
join the per-document blocks with blank lines, or the placeholder when the
document list is empty. -/
def combineContext (docs : List SearchDoc) : String :=
  if docs.isEmpty then noContextPlaceholder
  else joinSep "\n\n" (docs.map docContext)

/-- The fixed system prompt of `generate_rag_response` (`services.py:78-81`);
`'` is the apostrophe. -/
def system_prompt : String :=
  "You are a helpful Python documentation assistant. Use the provided context from Python documentation to answer questions. \n        If the context contains relevant information, use it to provide a detailed answer.\n        If the context doesn\u0027t contain enough information, acknowledge this and provide general Python knowledge to help the user.\n        Always be helpful and provide practical examples when possible."

/-- The user prompt of `generate_rag_response` (`services.py:84-89`). -/
def user_prompt (context question : String) : String :=
  "Context from Python documentation:\n        " ++ context
    ++ "\n\n        Question: " ++ question
    ++ "\n\n        Please provide a helpful answer based on the context above and your knowledge of Python."

/-- The message list of `generate_rag_response` (`services.py:91-94`). -/
def ragMessages (question : String) (docs : List SearchDoc) : List Msg :=
  [{ role := "system", content := system_prompt },
   { role := "user", content := user_prompt (combineContext docs) question }]

/-- `AzureOpenAIService.generate_rag_response` (`services.py:57-96`):
assemble the context and messages, then call the completion API with
`max_tokens = 800`. -/
def generate_rag_response (p : Providers) (question : String) (docs : List SearchDoc) :
    Option String × List Call :=
  generate_completion p (ragMessages question docs) 800

/-! ## main.py : request models and endpoints -/

/-- `QueryRequest` (`main.py:68-70`): the request model of `/ask`. -/
structure QueryRequest where
  question : String
  max_results : Int
deriving DecidableEq

/-- `QueryRequest` declares no field validators (`main.py:68-70`), so any
question string and any integer `max_results` construct a valid request. -/
def mkQueryRequest (question : String) (max_results : Int) : Except String QueryRequest :=
  .ok { question := question, max_results := max_results }

/-- `ChatRequest` (`main.py:20-36`): the request model of `/chat`. -/
structure ChatRequest where
  question : String
  max_results : Int
deriving DecidableEq

/-- The `question` validator of `ChatRequest` (`main.py:24-30`): rejects
blank and over-long questions, returns the stripped question. -/
def validate_question (v : String) : Except String String :=
  if pyStrip v = "" then .error "Question cannot be empty"
  else if 500 < (pyStrip v).length then .error "Question too long (max 500 characters)"
  else .ok (pyStrip v)

/-- The `max_results` validator of `ChatRequest` (`main.py:32-36`). -/
def validate_max_results (v : Int) : Except String Int :=
  if v < 1 ∨ 10 < v then .error "max_results must be between 1 and 10" else .ok v

/-- Pydantic validation of a `ChatRequest`: both field validators must
accept (question first, then `max_results`). -/
def mkChatRequest (question : String) (max_results : Int) : Except String ChatRequest :=
  match validate_question question with
  | .error e => .error e
  | .ok q =>
      match validate_max_results max_results with
      | .error e => .error e
      | .ok mr => .ok { question := q, max_results := mr }

/-- One entry of the `/ask` response's `sources` list (`main.py:172-178`). -/
structure AskSource where
  source_file : String
  chunk_index : Nat
  preview : String
deriving DecidableEq

/-- The `/ask` response body (`main.py:168-180`). -/
structure AskResponse where
  question : String
  answer : String
  sources_used : Nat
  sources : List AskSource
deriving DecidableEq

/-- `doc["content"][:100] + "..."` (`main.py:176`): the first 100 characters
of the content with `"..."` appended unconditionally. -/
def preview100 (content : String) : String :=
  String.mk (content.data.take 100) ++ "..."

/-- One `/ask` source entry (`main.py:173-177`). -/
def mkAskSource (d : SearchDoc) : AskSource :=
  { source_file := d.source_file, chunk_index := d.chunk_index, preview := preview100 d.content }

/-- The `/ask` endpoint `ask_question` (`main.py:133-185`): strip and check
the question, embed it, search, generate, and shape the response.  The
second component is the trace of provider calls made, in order. -/
def ask_question (p : Providers) (req : QueryRequest) :
    Except (Nat × String) AskResponse × List Call :=
  let question := pyStrip req.question
  if question = "" then (.error (400, "Question cannot be empty"), [])
  else
    match get_embedding p question with
    | (none, t1) => (.error (500, "Failed to generate question embedding"), t1)
    | (some question_embedding, t1) =>
        match vector_search p question_embedding req.max_results with
        | (none, t2) => (.error (500, "Search operation failed"), t1 ++ t2)
        | (some search_results, t2) =>
            match generate_rag_response p question search_results with
            | (none, t3) => (.error (500, "Failed to generate response"), t1 ++ t2 ++ t3)
            | (some answer, t3) =>
                (.ok { question := question
                       answer := answer
                       sources_used := search_results.length
                       sources := search_results.map mkAskSource },
                 t1 ++ t2 ++ t3)

/-- One entry of the `/chat` response's `sources` list (`main.py:300-307`),
with the mock relevance score `"high"` for the first two entries. -/
structure ChatSource where
  source_file : String
  chunk_index : Nat
  preview : String
  relevance : String
deriving DecidableEq

/-- The `/chat` response model `ChatResponse` (`main.py:39-45`).
`response_time_ms` is wall-clock time, not modelled (always 0 here). -/
structure ChatResponse where
  question : String
  answer : String
  sources_used : Nat
  sources : List ChatSource
  response_time_ms : Nat
  status : String
deriving DecidableEq

/-- The `i`-th `/chat` source entry (`main.py:300-307`). -/
def mkChatSource (i : Nat) (d : SearchDoc) : ChatSource :=
  { source_file := d.source_file, chunk_index := d.chunk_index
    preview := preview100 d.content
    relevance := if i < 2 then "high" else "medium" }

/-- The `/chat` handler body (`main.py:252-327`), reached only with an
already-validated `ChatRequest`. -/
def chat_handler (p : Providers) (req : ChatRequest) :
    Except (Nat × String) ChatResponse × List Call :=
  match get_embedding p req.question with
  | (none, t1) => (.error (503, "AI service temporarily unavailable. Please try again."), t1)
  | (some question_embedding, t1) =>
      match vector_search p question_embedding req.max_results with
      | (none, t2) =>
          (.error (503, "Search service temporarily unavailable. Please try again."), t1 ++ t2)
      | (some search_results, t2) =>
          match generate_rag_response p req.question search_results with
          | (none, t3) =>
              (.error (503, "AI response generation failed. Please try again."), t1 ++ t2 ++ t3)
          | (some answer, t3) =>
              (.ok { question := req.question
                     answer := answer
                     sources_used := search_results.length
                     sources := search_results.enum.map (fun pr => mkChatSource pr.1 pr.2)
                     response_time_ms := 0
                     status := "success" },
               t1 ++ t2 ++ t3)

/-- The full `/chat` path: FastAPI runs pydantic validation before the
handler; a validation failure is a 422 response with no provider calls. -/
def chat_endpoint (p : Providers) (question : String) (max_results : Int) :
    Except (Nat × String) ChatResponse × List Call :=
  match mkChatRequest question max_results with
  | .error e => (.error (422, e), [])
  | .ok req => chat_handler p req

/-! ## azure_search_indexer.py -/

/-- A processed chunk as loaded from `chunks_with_embeddings.json`
(`azure_search_indexer.py:109`): the `embedding` key may be absent. -/
structure RawChunk where
  id : String
  source_file : String
  chunk_index : Nat
  content : String
  content_length : Nat
  embedding : Option (List Int)
deriving DecidableEq

/-- One document of the upload payload (`azure_search_indexer.py:123-131`);
`search_action` models the `"@search.action"` key (always `"upload"`). -/
structure UploadDoc where
  search_action : String
  id : String
  source_file : String
  chunk_index : Nat
  content : String
  content_length : Nat
  embedding : List Int
deriving DecidableEq

/-- The payload-preparation loop of `upload_documents`
(`azure_search_indexer.py:120-132`): a chunk is included exactly when the
`"embedding"` key is present; no other check is made. -/
def prepare_upload (chunks : List RawChunk) : List UploadDoc :=
  chunks.filterMap (fun c =>
    match c.embedding with
    | some e =>
        some { search_action := "upload", id := c.id, source_file := c.source_file
               chunk_index := c.chunk_index, content := c.content
               content_length := c.content_length, embedding := e }
    | none => none)

/-- The `dimensions` attribute of the `embedding` field in the index
definition of `create_search_index` (`azure_search_indexer.py:66-72`). -/
def searchIndexEmbeddingDimensions : Nat := 1536

/-! ### Concrete providers and data used by witnesses and counterexamples -/

/-- A provider where every call succeeds and the search index is empty. -/
def pEmptyIndex : Providers :=
  { embed := fun _ => some [1]
    search := fun _ _ => some { value := [] }
    complete := fun _ _ => some "ans" }

/-- A provider whose embeddings API always fails. -/
def pEmbedFail : Providers :=
  { embed := fun _ => none
    search := fun _ _ => some { value := [] }
    complete := fun _ _ => some "ans" }

/-- Two concrete search documents, deliberately not ordered by
`chunk_index` or by `source_file`. -/
def docB : SearchDoc :=
  { id := "zeta_chunk_7", source_file := "zeta", chunk_index := 7, content := "zz" }

/-- See `docB`. -/
def docA : SearchDoc :=
  { id := "alpha_chunk_0", source_file := "alpha", chunk_index := 0, content := "aa" }

/-- A provider returning the two documents in the fixed order `[docB, docA]`. -/
def pTwoDocs : Providers :=
  { embed := fun _ => some [1]
    search := fun _ _ => some { value := [docB, docA] }
    complete := fun _ _ => some "ans" }

/-- A chunk carrying a 3-dimensional embedding (mismatching the index's
1536 dimensions). -/
def badChunk : RawChunk :=
  { id := "doc_chunk_0", source_file := "doc", chunk_index := 0, content := "c"
    content_length := 1, embedding := some [1, 2, 3] }

end RagMvp

namespace RagMvp

/-! ## Helper lemmas about the chunker -/

theorem joinWords_cons_cons (a b : String) (l : List String) :
    joinWords (a :: b :: l) = a ++ " " ++ joinWords (b :: l) := rfl

theorem data_joinWords_cons (w : String) (l : List String) (h : l ≠ []) :
    (joinWords (w :: l)).data = w.data ++ ' ' :: (joinWords l).data := by
  cases l with
  | nil => exact absurd rfl h
  | cons b t =>
      rw [joinWords_cons_cons]
      simp [String.data_append]

theorem length_joinWords_replicate (w : String) :
    ∀ n : Nat, (joinWords (List.replicate (n + 1) w)).length = (n + 1) * w.length + n
  | 0 => by simp [joinWords, joinSep]
  | n + 1 => by
      have h : List.replicate (n + 2) w = w :: w :: List.replicate n w := by
        simp [List.replicate_succ]
      have h2 : w :: List.replicate n w = List.replicate (n + 1) w := by
        simp [List.replicate_succ]
      rw [h, joinWords_cons_cons, h2, String.length_append, String.length_append,
        length_joinWords_replicate w n]
      have hsp : (" " : String).length = 1 := rfl
      rw [hsp]
      ring

theorem ne_empty_of_length_pos (s : String) (h : 0 < s.length) : s ≠ "" := by
  intro he
  rw [he] at h
  exact absurd h (by decide)

theorem dropWhile_eq_self_of_head (p : Char → Bool) (l : List Char)
    (h : ∀ c, l.head? = some c → p c = false) : l.dropWhile p = l := by
  cases l with
  | nil => rfl
  | cons a t => simp [List.dropWhile, h a rfl]

theorem pyStrip_eq_self (s : String)
    (h1 : ∀ c, s.data.head? = some c → c.isWhitespace = false)
    (h2 : ∀ c, s.data.getLast? = some c → c.isWhitespace = false) :
    pyStrip s = s := by
  unfold pyStrip
  rw [dropWhile_eq_self_of_head _ _ h1]
  rw [dropWhile_eq_self_of_head _ _ (by simpa [List.head?_reverse] using h2)]
  rw [List.reverse_reverse]

theorem head_joinWords_replicate_abcd :
    ∀ n : Nat, (joinWords (List.replicate (n + 1) "abcd")).data.head? = some 'a'
  | 0 => rfl
  | n + 1 => by
      have h : List.replicate (n + 2) "abcd" = "abcd" :: List.replicate (n + 1) "abcd" := by
        simp [List.replicate_succ]
      rw [h, data_joinWords_cons _ _ (by simp)]
      rfl

theorem getLast_joinWords_replicate_abcd :
    ∀ n : Nat, (joinWords (List.replicate (n + 1) "abcd")).data.getLast? = some 'd'
  | 0 => rfl
  | n + 1 => by
      have h : List.replicate (n + 2) "abcd" = "abcd" :: List.replicate (n + 1) "abcd" := by
        simp [List.replicate_succ]
      have hne : (joinWords (List.replicate (n + 1) "abcd")).data ≠ [] := by
        intro hnil
        have := getLast_joinWords_replicate_abcd n
        rw [hnil] at this
        exact absurd this (by simp)
      rw [h, data_joinWords_cons _ _ (by simp)]
      have hsplit : ("abcd".data ++ ' ' :: (joinWords (List.replicate (n + 1) "abcd")).data)
          = ("abcd".data ++ [' ']) ++ (joinWords (List.replicate (n + 1) "abcd")).data := by
        simp
      rw [hsplit, List.getLast?_append_of_ne_nil _ hne, getLast_joinWords_replicate_abcd n]

theorem pyStrip_joinWords_replicate_abcd (n : Nat) :
    pyStrip (joinWords (List.replicate (n + 1) "abcd"))
      = joinWords (List.replicate (n + 1) "abcd") := by
  refine pyStrip_eq_self _ (fun c hc => ?_) (fun c hc => ?_)
  · rw [head_joinWords_replicate_abcd n] at hc
    cases hc
    rfl
  · rw [getLast_joinWords_replicate_abcd n] at hc
    cases hc
    rfl

theorem keepChunk_iff (t : String) : keepChunk t = true ↔ 100 < t.length := by
  unfold keepChunk
  rw [decide_eq_true_iff]
  constructor
  · exact fun h => h.2
  · exact fun h => ⟨ne_empty_of_length_pos t (by omega), h⟩

theorem chunkAt_replicate_abcd (total count i : Nat)
    (hmin : min 500 (total - i) = count + 1) :
    chunkAt (List.replicate total "abcd") 500 i = joinWords (List.replicate (count + 1) "abcd") := by
  unfold chunkAt windowAt
  rw [List.drop_replicate, List.take_replicate, hmin, pyStrip_joinWords_replicate_abcd]

theorem filterMap_guard (f : Nat → String) (p : String → Bool) :
    ∀ l : List Nat,
      (l.filterMap fun i => let t := f i; if p t then some t else none)
        = (l.filter fun i => p (f i)).map f
  | [] => rfl
  | i :: l => by
      by_cases h : p (f i) = true <;>
        simp [List.filterMap_cons, List.filter_cons, h, filterMap_guard f p l]

/-- Whenever the Python `range` call succeeds, `chunk_text` returns exactly
the stripped joined windows at the surviving start indices, in order. -/
theorem chunkWordsE_shape (words : List String) (maxC : Nat) (ovl : Int) (idxs : List Nat)
    (h : pyRange0 words.length ((maxC : Int) - ovl) = .ok idxs) :
    chunkWordsE words maxC ovl
      = .ok ((keptStarts words maxC ovl).map (chunkAt words maxC)) := by
  unfold chunkWordsE keptStarts
  rw [h]
  dsimp only
  rw [filterMap_guard (chunkAt words maxC) keepChunk idxs]

theorem pyRange0_pos (stop s : Nat) (hs : 0 < s) :
    pyRange0 stop (s : Int)
      = .ok ((List.range ((stop + s - 1) / s)).map (fun k => k * s)) := by
  unfold pyRange0
  rw [if_neg (by omega), if_neg (by omega)]
  simp only [Int.toNat_natCast]

theorem length_intro1200 : intro1200.length = 1200 := by
  show (List.replicate 1200 "abcd").length = 1200
  rw [List.length_replicate]

theorem pyRange0_intro :
    pyRange0 intro1200.length (((500 : Nat) : Int) - (50 : Int)) = .ok [0, 450, 900] := by
  rw [length_intro1200]
  decide

theorem keptStarts_eq (words : List String) (maxC : Nat) (ovl : Int) (idxs : List Nat)
    (h : pyRange0 words.length ((maxC : Int) - ovl) = .ok idxs) :
    keptStarts words maxC ovl = idxs.filter (fun i => keepChunk (chunkAt words maxC i)) := by
  unfold keptStarts
  rw [h]

theorem keepChunk_chunkAt_intro (i count : Nat) (hmin : min 500 (1200 - i) = count + 1)
    (h : 100 < (count + 1) * 4 + count) :
    keepChunk (chunkAt intro1200 500 i) = true := by
  rw [keepChunk_iff, intro1200, chunkAt_replicate_abcd 1200 count i hmin,
    length_joinWords_replicate]
  have h4 : ("abcd" : String).length = 4 := rfl
  rw [h4]
  exact h

theorem keptStarts_intro : keptStarts intro1200 500 50 = [0, 450, 900] := by
  rw [keptStarts_eq intro1200 500 50 [0, 450, 900] pyRange0_intro]
  rw [List.filter_cons, List.filter_cons, List.filter_cons,
    keepChunk_chunkAt_intro 0 499 (by decide) (by decide),
    keepChunk_chunkAt_intro 450 499 (by decide) (by decide),
    keepChunk_chunkAt_intro 900 299 (by decide) (by decide)]
  rfl

theorem chunkWordsE_intro :
    chunkWordsE intro1200 500 50
      = .ok [chunkAt intro1200 500 0, chunkAt intro1200 500 450, chunkAt intro1200 500 900] := by
  rw [chunkWordsE_shape intro1200 500 50 [0, 450, 900] pyRange0_intro, keptStarts_intro]
  rfl

theorem processChunks_intro_ids (c0 c1 c2 : String) :
    (processChunks "intro" [c0, c1, c2]).map (fun p => p.id)
      = ["intro_chunk_0", "intro_chunk_1", "intro_chunk_2"] := by
  simp [processChunks, List.enum, List.enumFrom]
  decide

/-! ## Helper lemmas about window starts and overlap -/

theorem length_windowStarts (len maxC : Nat) (ovl : Int) :
    (windowStarts len maxC ovl).length = numWindows len maxC ovl := by
  simp [windowStarts]

theorem getD_windowStarts (len maxC : Nat) (ovl : Int) (k : Nat)
    (h : k < numWindows len maxC ovl) :
    (windowStarts len maxC ovl).getD k 0 = k * stepOf maxC ovl := by
  unfold windowStarts
  rw [List.getD_eq_getElem?_getD, List.getElem?_map, List.getElem?_range h]
  rfl

theorem stepOf_pos (maxC : Nat) (ovl : Int) (hov : 0 ≤ ovl) (hlt : ovl < (maxC : Int)) :
    0 < stepOf maxC ovl := by
  unfold stepOf
  omega

theorem pyRange0_valid (len maxC : Nat) (ovl : Int) (hov : 0 ≤ ovl) (hlt : ovl < (maxC : Int)) :
    pyRange0 len ((maxC : Int) - ovl) = .ok (windowStarts len maxC ovl) := by
  have hcast : (maxC : Int) - ovl = ((stepOf maxC ovl : Nat) : Int) := by
    unfold stepOf
    omega
  rw [hcast, pyRange0_pos len (stepOf maxC ovl) (stepOf_pos maxC ovl hov hlt)]
  rfl

theorem succOverlap_of_full (words : List String) (maxC : Nat) (ovl : Int)
    (hov : 0 ≤ ovl) (hlt : ovl < (maxC : Int))
    (hnd : keptStarts words maxC ovl = windowStarts words.length maxC ovl)
    (hfull : ∀ k, k + 2 < numWindows words.length maxC ovl →
        k * stepOf maxC ovl + maxC ≤ words.length) :
    succOverlapExact words maxC ovl := by
  intro k hk
  rw [hnd] at hk ⊢
  rw [length_windowStarts] at hk
  rw [getD_windowStarts _ _ _ k (by omega), getD_windowStarts _ _ _ (k + 1) (by omega)]
  unfold sharedTok
  have hf := hfull k hk
  have hs : 0 < stepOf maxC ovl := stepOf_pos maxC ovl hov hlt
  have hsucc : (k + 1) * stepOf maxC ovl = k * stepOf maxC ovl + stepOf maxC ovl := by ring
  rw [min_eq_left hf, hsucc]
  unfold stepOf
  omega

/-! ## Claim C1 -/

/-- C1, counterexample: for the valid parameters `(maxChunkSize, overlap) =
(5, 4)` and a non-empty text of four 101-character words, chunks 0 and 1
share only 3 tokens (window 0 is truncated to the 4 available words), and
chunk 1 is not the last chunk, so the claimed "successive chunks overlap by
exactly `overlap` tokens (except possibly the last)" fails. -/
theorem C1_overlap_counterexample : ¬ succOverlapExact (splitWs cexText) 5 4 := by
  intro h
  exact absurd (h 0 (by decide)) (by decide)

/-- C1, amended: for valid parameters, `chunk_text` emits, in order, the
stripped joined windows at the start indices that survive the length
filter; every window holds at most `maxChunkSize` tokens; the start indices
are exactly the multiples of `maxChunkSize - overlap` below the token count
(successive starts advance by exactly the step); successive emitted chunks
overlap by exactly `overlap` tokens (except possibly at the last chunk)
PROVIDED no window is discarded by the length filter and every window with
at least two successors holds a full `maxChunkSize` tokens; and the
concrete scenario holds: a 1200-word document named `"intro"` with
`maxChunkSize = 500, overlap = 50` yields exactly the three passages
`intro_chunk_0, intro_chunk_1, intro_chunk_2`, with chunk 1 the window
starting 450 words into the source text. -/
theorem C1_chunker_windowing (words : List String) (maxC : Nat) (ovl : Int)
    (hov : 0 ≤ ovl) (hlt : ovl < (maxC : Int)) :
    chunkWordsE words maxC ovl = .ok ((keptStarts words maxC ovl).map (chunkAt words maxC))
    ∧ (∀ i, (windowAt words maxC i).length ≤ maxC)
    ∧ pyRange0 words.length ((maxC : Int) - ovl) = .ok (windowStarts words.length maxC ovl)
    ∧ (∀ k, k + 1 < numWindows words.length maxC ovl →
        (windowStarts words.length maxC ovl).getD (k + 1) 0
          = (windowStarts words.length maxC ovl).getD k 0 + stepOf maxC ovl)
    ∧ (keptStarts words maxC ovl = windowStarts words.length maxC ovl →
        (∀ k, k + 2 < numWindows words.length maxC ovl →
            k * stepOf maxC ovl + maxC ≤ words.length) →
        succOverlapExact words maxC ovl)
    ∧ chunkWordsE intro1200 500 50
        = .ok [chunkAt intro1200 500 0, chunkAt intro1200 500 450, chunkAt intro1200 500 900]
    ∧ (processChunks "intro"
          [chunkAt intro1200 500 0, chunkAt intro1200 500 450, chunkAt intro1200 500 900]).map
            (fun c => c.id)
        = ["intro_chunk_0", "intro_chunk_1", "intro_chunk_2"] := by
  refine ⟨?_, ?_, ?_, ?_, ?_, chunkWordsE_intro, processChunks_intro_ids _ _ _⟩
  · exact chunkWordsE_shape words maxC ovl _ (pyRange0_valid words.length maxC ovl hov hlt)
  · intro i
    unfold windowAt
    rw [List.length_take]
    exact min_le_left _ _
  · exact pyRange0_valid words.length maxC ovl hov hlt
  · intro k hk
    rw [getD_windowStarts _ _ _ (k + 1) hk, getD_windowStarts _ _ _ k (by omega)]
    ring
  · exact succOverlap_of_full words maxC ovl hov hlt

/-- Witness for C1: the amended theorem applied at the concrete scenario
input (1200 words, `maxChunkSize = 500`, `overlap = 50`). -/
theorem C1_chunker_windowing_witness :
    chunkWordsE intro1200 500 50
      = .ok ((keptStarts intro1200 500 50).map (chunkAt intro1200 500)) :=
  (C1_chunker_windowing intro1200 500 50 (by decide) (by decide)).1

/-! ## Claim C5 -/

/-- C5, counterexample: a window whose stripped joined text is exactly 100
characters long (not "shorter than 100") is nevertheless discarded:
chunking a single 100-character word yields the empty list. -/
theorem C5_boundary_counterexample :
    (chunkAt [w100] 500 0).length = 100 ∧ chunkWordsE [w100] 500 50 = .ok [] := by
  constructor
  · decide
  · decide

/-- C5, amended: a window is discarded exactly when its stripped joined
text has at most 100 characters; a chunk is emitted exactly when that text
is strictly longer than 100 characters (so an exactly-100-character window
is discarded), and consequently every emitted chunk is strictly longer
than 100 characters. -/
theorem C5_length_filter (t : String) (words : List String) (maxC : Nat) (ovl : Int)
    (cs : List String) (h : chunkWordsE words maxC ovl = .ok cs) :
    (keepChunk t = true ↔ 100 < t.length) ∧ ∀ c ∈ cs, 100 < c.length := by
  refine ⟨keepChunk_iff t, ?_⟩
  intro c hc
  unfold chunkWordsE at h
  cases hp : pyRange0 words.length ((maxC : Int) - ovl) with
  | error e =>
      rw [hp] at h
      exact absurd h (by simp)
  | ok idxs =>
      rw [hp] at h
      injection h with h
      rw [← h] at hc
      rcases List.mem_filterMap.mp hc with ⟨i, _, hit⟩
      dsimp only at hit
      by_cases hk : keepChunk (chunkAt words maxC i) = true
      · rw [if_pos hk] at hit
        injection hit with hit
        rw [← hit]
        exact (keepChunk_iff _).mp hk
      · rw [if_neg hk] at hit
        exact absurd hit (by simp)

/-- Witness for C5: the amended theorem applied to a single 101-character
word at the default parameters; its one chunk is strictly longer than 100
characters. -/
theorem C5_length_filter_witness :
    (keepChunk w101 = true ↔ 100 < w101.length)
    ∧ ∀ c ∈ [chunkAt [w101] 500 0], 100 < c.length :=
  C5_length_filter w101 [w101] 500 50 [chunkAt [w101] 500 0] (by decide)

/-! ## Claim C6 -/

/-- C6, counterexample: `overlap = 7` with `maxChunkSize = 5` violates
`0 <= overlap < maxChunkSize`, yet `chunk_text` neither loops nor fails: it
silently returns an empty result (Python `range(0, n, negative)` is empty). -/
theorem C6_no_error_counterexample :
    ¬ (0 ≤ (7 : Int) ∧ (7 : Int) < (5 : Nat)) ∧ chunkWordsE ["aaaaa"] 5 7 = .ok [] := by
  constructor
  · decide
  · decide

/-- C6, amended: `chunk_text` performs no parameter validation.  Only
`overlap = maxChunkSize` fails (a `ValueError` raised by `range` for its
zero step); `overlap > maxChunkSize` silently returns the empty list; and
`overlap < 0` (a degenerate step larger than the window, which skips
tokens) silently returns a result. -/
theorem C6_overlap_not_validated (words : List String) (maxC : Nat) (ovl : Int) :
    (ovl = (maxC : Int) → chunkWordsE words maxC ovl = .error "range() arg 3 must not be zero")
    ∧ ((maxC : Int) < ovl → chunkWordsE words maxC ovl = .ok [])
    ∧ (ovl < 0 → ∃ cs, chunkWordsE words maxC ovl = .ok cs) := by
  refine ⟨?_, ?_, ?_⟩
  · intro h
    unfold chunkWordsE pyRange0
    rw [if_pos (by omega)]
  · intro h
    unfold chunkWordsE pyRange0
    rw [if_neg (by omega), if_pos (by omega)]
    rfl
  · intro h
    have hcast : (maxC : Int) - ovl = ((((maxC : Int) - ovl).toNat : Nat) : Int) := by omega
    have hok := pyRange0_pos words.length (((maxC : Int) - ovl).toNat) (by omega)
    rw [← hcast] at hok
    exact ⟨_, chunkWordsE_shape words maxC ovl _ hok⟩

/-- Witness for C6: zero step — `overlap = maxChunkSize = 5` raises the
`range` error. -/
theorem C6_overlap_not_validated_witness :
    chunkWordsE ["aaaaa"] 5 5 = .error "range() arg 3 must not be zero" :=
  (C6_overlap_not_validated ["aaaaa"] 5 5).1 rfl

/-! ## Helper lemmas about the endpoints -/

theorem ask_question_embed_fail (p : Providers) (qr : QueryRequest)
    (hq : pyStrip qr.question ≠ "") (he : p.embed (pyStrip qr.question) = none) :
    ask_question p qr
      = (.error (500, "Failed to generate question embedding"),
         [Call.embed (pyStrip qr.question)]) := by
  simp [ask_question, get_embedding, hq, he]

theorem ask_question_success (p : Providers) (qr : QueryRequest) (emb : List Int)
    (docs : List SearchDoc) (ans : String)
    (hq : pyStrip qr.question ≠ "")
    (he : p.embed (pyStrip qr.question) = some emb)
    (hs : p.search emb qr.max_results = some { value := docs })
    (hg : p.complete (ragMessages (pyStrip qr.question) docs) 800 = some ans) :
    ask_question p qr
      = (.ok { question := pyStrip qr.question
               answer := ans
               sources_used := docs.length
               sources := docs.map mkAskSource },
         [Call.embed (pyStrip qr.question),
          Call.search emb qr.max_results,
          Call.complete (ragMessages (pyStrip qr.question) docs) 800]) := by
  simp [ask_question, get_embedding, vector_search, generate_rag_response,
    generate_completion, hq, he, hs, hg]

theorem chat_handler_embed_fail (p : Providers) (req : ChatRequest)
    (he : p.embed req.question = none) :
    chat_handler p req
      = (.error (503, "AI service temporarily unavailable. Please try again."),
         [Call.embed req.question]) := by
  simp [chat_handler, get_embedding, he]

theorem chat_handler_success (p : Providers) (req : ChatRequest) (emb : List Int)
    (docs : List SearchDoc) (ans : String)
    (he : p.embed req.question = some emb)
    (hs : p.search emb req.max_results = some { value := docs })
    (hg : p.complete (ragMessages req.question docs) 800 = some ans) :
    chat_handler p req
      = (.ok { question := req.question
               answer := ans
               sources_used := docs.length
               sources := docs.enum.map (fun pr => mkChatSource pr.1 pr.2)
               response_time_ms := 0
               status := "success" },
         [Call.embed req.question,
          Call.search emb req.max_results,
          Call.complete (ragMessages req.question docs) 800]) := by
  simp [chat_handler, get_embedding, vector_search, generate_rag_response,
    generate_completion, he, hs, hg]

/-! ## Claim C2 -/

/-- C2, counterexample: on the `/ask` path (`QueryRequest`), the
out-of-range value `max_results = 0` passes validation (`QueryRequest` has
no validator), the request succeeds, and the search provider IS called with
`k = 0` — so out-of-range top-k does not fail on every request path that
invokes the retrieval pipeline. -/
theorem C2_ask_no_validation_counterexample :
    mkQueryRequest "What is a list?" 0 = .ok { question := "What is a list?", max_results := 0 }
    ∧ (ask_question pEmptyIndex { question := "What is a list?", max_results := 0 }).1
        = .ok { question := "What is a list?", answer := "ans", sources_used := 0, sources := [] }
    ∧ Call.search [1] 0 ∈ (ask_question pEmptyIndex { question := "What is a list?", max_results := 0 }).2 := by
  refine ⟨rfl, ?_, ?_⟩
  · rw [ask_question_success pEmptyIndex _ [1] [] "ans" (by decide) rfl rfl rfl]
    decide
  · rw [ask_question_success pEmptyIndex _ [1] [] "ans" (by decide) rfl rfl rfl]
    simp

/-- C2, amended: on the `/chat` path (`ChatRequest`), a `max_results`
outside `[1, 10]` (in particular 0 and 11) fails pydantic validation with a
422 before any provider call (empty call trace), with no silent clamping,
while the boundary values 1 and 10 pass; the `/ask` path (`QueryRequest`)
applies no `max_results` validation at all, so the property does not hold
on every request path. -/
theorem C2_topk_validation (p : Providers) (q q2 : String) (mr : Int)
    (hq : validate_question q = .ok q2) :
    ((mr < 1 ∨ 10 < mr) →
        chat_endpoint p q mr = (.error (422, "max_results must be between 1 and 10"), []))
    ∧ (mr = 1 ∨ mr = 10 → validate_max_results mr = .ok mr)
    ∧ (∀ q3 mr2, mkQueryRequest q3 mr2 = .ok { question := q3, max_results := mr2 }) := by
  refine ⟨?_, ?_, fun q3 mr2 => rfl⟩
  · intro hmr
    unfold chat_endpoint mkChatRequest
    rw [hq]
    unfold validate_max_results
    rw [if_pos hmr]
  · intro hmr
    unfold validate_max_results
    rw [if_neg (by omega)]

/-- Witness for C2: with a valid question, `max_results = 11` is rejected
on the `/chat` path with no provider call. -/
theorem C2_topk_validation_witness :
    chat_endpoint pEmptyIndex "What is a list?" 11
      = (.error (422, "max_results must be between 1 and 10"), []) :=
  (C2_topk_validation pEmptyIndex "What is a list?" "What is a list?" 11 (by decide)).1
    (by decide)

/-! ## Claim C3 -/

/-- C3: on both the `/ask` and `/chat` paths, if the embedding step returns
no vector the request fails immediately with the embedding-stage error, and
the vector search provider is never invoked (no `Call.search` in the
trace). -/
theorem C3_embed_fail_fast (p : Providers) (qr : QueryRequest) (req : ChatRequest)
    (hq : pyStrip qr.question ≠ "")
    (he : p.embed (pyStrip qr.question) = none)
    (he2 : p.embed req.question = none) :
    (ask_question p qr).1 = .error (500, "Failed to generate question embedding")
    ∧ (∀ v k, Call.search v k ∉ (ask_question p qr).2)
    ∧ (chat_handler p req).1
        = .error (503, "AI service temporarily unavailable. Please try again.")
    ∧ (∀ v k, Call.search v k ∉ (chat_handler p req).2) := by
  rw [ask_question_embed_fail p qr hq he, chat_handler_embed_fail p req he2]
  refine ⟨rfl, ?_, rfl, ?_⟩ <;> simp

/-- Witness for C3: a provider whose embeddings API always fails, on the
question `"Hi"`. -/
theorem C3_embed_fail_fast_witness :
    (ask_question pEmbedFail { question := "Hi", max_results := 3 }).1
        = .error (500, "Failed to generate question embedding")
    ∧ (∀ v k, Call.search v k ∉ (ask_question pEmbedFail { question := "Hi", max_results := 3 }).2)
    ∧ (chat_handler pEmbedFail { question := "Hi", max_results := 3 }).1
        = .error (503, "AI service temporarily unavailable. Please try again.")
    ∧ (∀ v k, Call.search v k ∉ (chat_handler pEmbedFail { question := "Hi", max_results := 3 }).2) :=
  C3_embed_fail_fast pEmbedFail { question := "Hi", max_results := 3 }
    { question := "Hi", max_results := 3 } (by decide) rfl rfl

/-! ## Claim C4 -/

/-- C4: when vector search returns zero passages, the context passed to the
generation provider is exactly the explicit placeholder (never empty or
ambiguous), generation still proceeds (the completion call is in the
trace), and the successful response has `sources_used = 0` and
`sources = []`. -/
theorem C4_empty_retrieval (p : Providers) (qr : QueryRequest) (emb : List Int) (ans : String)
    (hq : pyStrip qr.question ≠ "")
    (he : p.embed (pyStrip qr.question) = some emb)
    (hs : p.search emb qr.max_results = some { value := [] })
    (hg : p.complete (ragMessages (pyStrip qr.question) []) 800 = some ans) :
    combineContext [] = noContextPlaceholder
    ∧ noContextPlaceholder = "No relevant context found in the documentation."
    ∧ ragMessages (pyStrip qr.question) []
        = [{ role := "system", content := system_prompt },
           { role := "user", content := user_prompt noContextPlaceholder (pyStrip qr.question) }]
    ∧ Call.complete (ragMessages (pyStrip qr.question) []) 800 ∈ (ask_question p qr).2
    ∧ (ask_question p qr).1
        = .ok { question := pyStrip qr.question, answer := ans, sources_used := 0, sources := [] } := by
  rw [ask_question_success p qr emb [] ans hq he hs hg]
  refine ⟨rfl, rfl, rfl, ?_, rfl⟩
  simp

/-- Witness for C4: the empty-index provider on the question `"Hi"`. -/
theorem C4_empty_retrieval_witness :
    combineContext [] = noContextPlaceholder
    ∧ noContextPlaceholder = "No relevant context found in the documentation."
    ∧ ragMessages (pyStrip "Hi") []
        = [{ role := "system", content := system_prompt },
           { role := "user", content := user_prompt noContextPlaceholder (pyStrip "Hi") }]
    ∧ Call.complete (ragMessages (pyStrip "Hi") []) 800
        ∈ (ask_question pEmptyIndex { question := "Hi", max_results := 3 }).2
    ∧ (ask_question pEmptyIndex { question := "Hi", max_results := 3 }).1
        = .ok { question := pyStrip "Hi", answer := "ans", sources_used := 0, sources := [] } :=
  C4_empty_retrieval pEmptyIndex { question := "Hi", max_results := 3 } [1] "ans"
    (by decide) rfl rfl rfl

/-! ## Claim C7 -/

/-- C7: the pipeline preserves the provider's best-first order everywhere:
`vector_search` returns the provider's `value` list unchanged, the Answerer
is invoked with exactly that list (in the completion-call messages), and
the response's `sources` are that list mapped entrywise in the same
order — no re-sorting by any key occurs. -/
theorem C7_order_preserved (p : Providers) (qr : QueryRequest) (emb : List Int)
    (docs : List SearchDoc) (ans : String)
    (hq : pyStrip qr.question ≠ "")
    (he : p.embed (pyStrip qr.question) = some emb)
    (hs : p.search emb qr.max_results = some { value := docs })
    (hg : p.complete (ragMessages (pyStrip qr.question) docs) 800 = some ans) :
    (vector_search p emb qr.max_results).1 = some docs
    ∧ Call.complete (ragMessages (pyStrip qr.question) docs) 800 ∈ (ask_question p qr).2
    ∧ (∀ r, (ask_question p qr).1 = .ok r → r.sources = docs.map mkAskSource) := by
  refine ⟨?_, ?_, ?_⟩
  · simp [vector_search, hs]
  · rw [ask_question_success p qr emb docs ans hq he hs hg]
    simp
  · intro r hr
    rw [ask_question_success p qr emb docs ans hq he hs hg] at hr
    injection hr with hr
    rw [← hr]

/-- Witness for C7: a provider returning two documents in an order that is
sorted neither by source key nor by chunk index; the response sources keep
that order. -/
theorem C7_order_preserved_witness :
    (vector_search pTwoDocs [1] 3).1 = some [docB, docA]
    ∧ Call.complete (ragMessages (pyStrip "Hi") [docB, docA]) 800
        ∈ (ask_question pTwoDocs { question := "Hi", max_results := 3 }).2
    ∧ (∀ r, (ask_question pTwoDocs { question := "Hi", max_results := 3 }).1 = .ok r →
        r.sources = [docB, docA].map mkAskSource) :=
  C7_order_preserved pTwoDocs { question := "Hi", max_results := 3 } [1] [docB, docA] "ans"
    (by decide) rfl rfl rfl

/-! ## Claim C8 -/

/-- C8, counterexample: a chunk whose embedding has only 3 dimensions (not
the index's 1536) is NOT excluded from the upload payload — the code checks
only that the `"embedding"` key is present. -/
theorem C8_dimension_counterexample :
    (prepare_upload [badChunk]).map (fun d => d.embedding.length) = [3]
    ∧ (3 : Nat) ≠ searchIndexEmbeddingDimensions := by
  constructor
  · rfl
  · decide

/-- C8, amended: every document in the upload payload has an embedding
present, copied from a source chunk that carries one, and chunks without an
embedding are excluded (the payload holds exactly the chunks whose
embedding is present); but no client-side dimensionality check is
performed — only the index schema fixes the dimensionality at 1536. -/
theorem C8_upload_embedding_present (chunks : List RawChunk) :
    (∀ d ∈ prepare_upload chunks, ∃ c ∈ chunks, c.embedding = some d.embedding)
    ∧ (prepare_upload chunks).length = (chunks.filter (fun c => c.embedding.isSome)).length
    ∧ searchIndexEmbeddingDimensions = 1536 := by
  refine ⟨?_, ?_, rfl⟩
  · intro d hd
    rcases List.mem_filterMap.mp hd with ⟨c, hc, hcd⟩
    refine ⟨c, hc, ?_⟩
    cases hce : c.embedding with
    | none =>
        rw [hce] at hcd
        exact absurd hcd (by simp)
    | some e =>
        rw [hce] at hcd
        injection hcd with hcd
        rw [← hcd]
  · induction chunks with
    | nil => rfl
    | cons c t ih =>
        cases hce : c.embedding with
        | none => simpa [prepare_upload, List.filterMap_cons, List.filter_cons, hce] using ih
        | some e => simpa [prepare_upload, List.filterMap_cons, List.filter_cons, hce] using ih

/-- Witness for C8: the amended theorem at the single mismatched chunk — it
is still uploaded (payload length 1) because it has an embedding. -/
theorem C8_upload_embedding_present_witness :
    (prepare_upload [badChunk]).length
      = (([badChunk] : List RawChunk).filter (fun c => c.embedding.isSome)).length :=
  (C8_upload_embedding_present [badChunk]).2.1

/-! ## Claim C9 -/

theorem map_fst_zip_map {α β γ : Type} (g : α → γ) :
    ∀ (r : List α) (l : List β), r.length ≤ l.length →
      ((r.zip l).map fun pr => g pr.1) = r.map g
  | [], _, _ => rfl
  | a :: r, [], h => by simp at h
  | a :: r, b :: l, h => by
      simp only [List.zip_cons_cons, List.map_cons]
      rw [map_fst_zip_map g r l (by simpa using h)]

theorem processChunks_ids (f : String) (cs : List String) :
    (processChunks f cs).map (fun c => c.id)
      = (List.range cs.length).map (fun k => f ++ "_chunk_" ++ toString k) := by
  unfold processChunks
  rw [List.map_map, List.enum_eq_zip_range]
  exact map_fst_zip_map (fun k => f ++ "_chunk_" ++ toString k) (List.range cs.length) cs
    (by simp)

/-- C9: chunking is a pure function — two runs on equal text and equal
`(maxChunkSize, overlap)` produce equal (byte-identical) output — and the
passage id derived by `process_document` depends only on the source key and
the zero-based chunk position (`f ++ "_chunk_" ++ k`), so it is stable
across repeated ingestion runs. -/
theorem C9_chunking_deterministic (t1 t2 : String) (m1 m2 : Nat) (o1 o2 : Int) (f : String)
    (cs : List String) (ht : t1 = t2) (hm : m1 = m2) (ho : o1 = o2) :
    chunk_text t1 m1 o1 = chunk_text t2 m2 o2
    ∧ (processChunks f cs).map (fun c => c.id)
        = (List.range cs.length).map (fun k => f ++ "_chunk_" ++ toString k) := by
  subst ht hm ho
  exact ⟨rfl, processChunks_ids f cs⟩

/-- Witness for C9: two identical runs on a concrete two-word text. -/
theorem C9_chunking_deterministic_witness :
    chunk_text "alpha beta" 500 50 = chunk_text "alpha beta" 500 50
    ∧ (processChunks "intro" ["a", "b"]).map (fun c => c.id)
        = (List.range (["a", "b"] : List String).length).map
            (fun k => "intro" ++ "_chunk_" ++ toString k) :=
  C9_chunking_deterministic "alpha beta" "alpha beta" 500 500 50 50 "intro" ["a", "b"]
    rfl rfl rfl

/-! ## Claim C10 -/

/-- C10: in every successful `/ask` and `/chat` response, `sources_used`
equals the length of `sources`, the sources are the retrieved documents in
order, and each source's preview is the first 100 characters of the
passage content with `"..."` appended — appended even when the content
itself is at most 100 characters long. -/
theorem C10_response_shape (p : Providers) (qr : QueryRequest) (req : ChatRequest)
    (emb emb2 : List Int) (docs docs2 : List SearchDoc) (ans ans2 : String)
    (hq : pyStrip qr.question ≠ "")
    (he : p.embed (pyStrip qr.question) = some emb)
    (hs : p.search emb qr.max_results = some { value := docs })
    (hg : p.complete (ragMessages (pyStrip qr.question) docs) 800 = some ans)
    (he2 : p.embed req.question = some emb2)
    (hs2 : p.search emb2 req.max_results = some { value := docs2 })
    (hg2 : p.complete (ragMessages req.question docs2) 800 = some ans2) :
    (∀ r, (ask_question p qr).1 = .ok r →
        r.sources_used = r.sources.length ∧ r.sources = docs.map mkAskSource)
    ∧ (∀ r, (chat_handler p req).1 = .ok r →
        r.sources_used = r.sources.length
          ∧ r.sources = docs2.enum.map (fun pr => mkChatSource pr.1 pr.2))
    ∧ (∀ d : SearchDoc, (mkAskSource d).preview = String.mk (d.content.data.take 100) ++ "...")
    ∧ (∀ (i : Nat) (d : SearchDoc),
        (mkChatSource i d).preview = String.mk (d.content.data.take 100) ++ "...")
    ∧ (∀ d : SearchDoc, d.content.length ≤ 100 → (mkAskSource d).preview = d.content ++ "...") := by
  refine ⟨?_, ?_, fun d => rfl, fun i d => rfl, ?_⟩
  · intro r hr
    rw [ask_question_success p qr emb docs ans hq he hs hg] at hr
    injection hr with hr
    rw [← hr]
    exact ⟨by simp, rfl⟩
  · intro r hr
    rw [chat_handler_success p req emb2 docs2 ans2 he2 hs2 hg2] at hr
    injection hr with hr
    rw [← hr]
    exact ⟨by simp, rfl⟩
  · intro d hlen
    unfold mkAskSource preview100
    have htake : d.content.data.take 100 = d.content.data :=
      List.take_of_length_le hlen
    rw [htake]

/-- Witness for C10: the two-document provider on both endpoints; one of
the documents has content shorter than 100 characters. -/
theorem C10_response_shape_witness :
    (∀ r, (ask_question pTwoDocs { question := "Hi", max_results := 3 }).1 = .ok r →
        r.sources_used = r.sources.length ∧ r.sources = [docB, docA].map mkAskSource)
    ∧ (∀ r, (chat_handler pTwoDocs { question := "Hi", max_results := 3 }).1 = .ok r →
        r.sources_used = r.sources.length
          ∧ r.sources = [docB, docA].enum.map (fun pr => mkChatSource pr.1 pr.2))
    ∧ (∀ d : SearchDoc, (mkAskSource d).preview = String.mk (d.content.data.take 100) ++ "...")
    ∧ (∀ (i : Nat) (d : SearchDoc),
        (mkChatSource i d).preview = String.mk (d.content.data.take 100) ++ "...")
    ∧ (∀ d : SearchDoc, d.content.length ≤ 100 → (mkAskSource d).preview = d.content ++ "...") :=
  C10_response_shape pTwoDocs { question := "Hi", max_results := 3 }
    { question := "Hi", max_results := 3 } [1] [1] [docB, docA] [docB, docA] "ans" "ans"
    (by decide) rfl rfl rfl rfl rfl rfl

end RagMvp
